import Mathlib

/- Formal model of the tool-augmented decision loop of the AI Travel Agent
(`app.py`): the conversation-state model, the routing function
(`Agent.exists_action`), the argument resolver and tool-invocation layer
(`Agent.invoke_tools`), and the graph wiring built in `Agent.__init__`. -/

namespace TravelAgent

/-- Values stored in a tool-call argument mapping: Python strings,
non-negative integers, and the Python `None` object (as produced by
`dict.get` on a missing key). -/
inductive Value where
  | vStr : String → Value
  | vNat : Nat → Value
  | vNone : Value
deriving DecidableEq, Repr

/-- Argument mapping of a tool call: a Python `dict` from argument names to
values, kept in insertion order. -/
abbrev Args := List (String × Value)

/-- Lookup in an argument mapping (`args[k]`, `k in args`). -/
def alookup (a : Args) (k : String) : Option Value :=
  match a with
  | [] => none
  | (k', v) :: rest => if k' = k then some v else alookup rest k

/-- Embeds `if k not in args: args[k] = v` — a fresh key is appended at the
end of the dict, an existing binding is left untouched. -/
def setIfAbsent (a : Args) (k : String) (v : Value) : Args :=
  if (alookup a k).isSome then a else a ++ [(k, v)]

/-- Lower-casing of one character, as `str.lower()` acts on the ASCII
strings this program feeds it. -/
def lowerChar (c : Char) : Char :=
  if 65 ≤ c.toNat ∧ c.toNat ≤ 90 then Char.ofNat (c.toNat + 32) else c

/-- Embeds Python `str.lower()` on ASCII strings. -/
def lowerStr (s : String) : String :=
  ⟨s.data.map lowerChar⟩

/-- Snapshot of `st.session_state`: the sidebar trip preferences that the
argument resolver reads with `.get`. A `none` field models a key absent from
the session; dates are modelled by their `str()` rendering. -/
structure SessionState where
  origin : Option String := none
  destination : Option String := none
  start_date : Option String := none
  end_date : Option String := none
  budget : Option String := none
  adult : Option Nat := none
  children : Option Nat := none
deriving DecidableEq, Repr

/-- Embeds `st.session_state.get("budget", "Medium").lower()`
(app.py lines 164 and 172). -/
def budgetOf (s : SessionState) : String :=
  lowerStr (s.budget.getD "Medium")

/-- Budget-tier to `hotel_class` fill (app.py lines 163-170). The source's
`if/elif` chain has no final `else`, so a tier outside the three recognised
ones sets nothing. -/
def fillHotelClass (budget : String) (args : Args) : Args :=
  if (alookup args "hotel_class").isSome then args
  else if budget = "low" then args ++ [("hotel_class", Value.vStr "1,2")]
  else if budget = "medium" then args ++ [("hotel_class", Value.vStr "3,4")]
  else if budget = "high" then args ++ [("hotel_class", Value.vStr "5")]
  else args

/-- Argument resolution for `hotels_finder` (app.py lines 154-173); `today`
embeds `str(datetime.date.today())`. -/
def resolveHotelArgs (today : String) (s : SessionState) (args : Args) : Args :=
  let a1 := setIfAbsent args "q" (Value.vStr (s.destination.getD ""))
  let a2 := setIfAbsent a1 "check_in_date" (Value.vStr (s.start_date.getD today))
  let a3 := setIfAbsent a2 "check_out_date" (Value.vStr (s.end_date.getD today))
  let a4 := setIfAbsent a3 "adults" (Value.vNat 2)
  let a5 := fillHotelClass (budgetOf s) a4
  setIfAbsent a5 "sort_by" (Value.vStr (if budgetOf s = "low" then "3" else "8"))

/-- Embeds `cities_iata.get(city)` flowing into an argument slot: a city
missing from the map becomes the Python `None` value. -/
def iataValue (cities : String → Option String) (city : String) : Value :=
  match cities city with
  | some code => Value.vStr code
  | none => Value.vNone

/-- Argument resolution for `flights_finder` (app.py lines 181-192); `cities`
is the loaded `cities_iata.json` mapping. -/
def resolveFlightArgs (today : String) (cities : String → Option String)
    (s : SessionState) (args : Args) : Args :=
  let a1 := setIfAbsent args "departure_airport"
    (iataValue cities (lowerStr (s.origin.getD "")))
  let a2 := setIfAbsent a1 "arrival_airport"
    (iataValue cities (lowerStr (s.destination.getD "")))
  let a3 := setIfAbsent a2 "outbound_date" (Value.vStr (s.start_date.getD today))
  let a4 := setIfAbsent a3 "return_date" (Value.vStr (s.end_date.getD today))
  let a5 := setIfAbsent a4 "adults" (Value.vNat (s.adult.getD 1))
  setIfAbsent a5 "children" (Value.vNat (s.children.getD 0))

/-- A tool call requested by the reasoning component. -/
structure ToolCallRequest where
  id : String
  name : String
  args : Args
deriving DecidableEq, Repr

/-- The data of one emitted `ToolMessage`. -/
structure ToolResultMsg where
  tool_call_id : String
  name : String
  content : String
deriving DecidableEq, Repr

/-- Modelled from the spec: the keys of the tool registry `self._tools`
(`{t.name: t for t in TOOLS}`). `hotel_tool.py` and `flight_tool.py` are not
part of the analysed source; the names are those of the dispatch literals in
`invoke_tools` and of the spec's two lookup tools. -/
def registeredTools : List String := ["hotels_finder", "flights_finder"]

/-- External collaborators of `invoke_tools`, all outside the analysed
source: `validateHotel` / `validateFlight` embed the pydantic constructions
`HotelsInput(**args)` / `FlightsInput(**args)` (an `error` is a raised
exception, carrying its text), and `runTool` embeds
`self._tools[name].invoke({"params": parsed_args})` (`.strip()` is the
identity on the registered names). -/
structure Externals where
  validateHotel : Args → Except String Unit
  validateFlight : Args → Except String Unit
  runTool : String → Args → Except String String

/-- Result content and final argument mapping for one tool call: the body of
the `for t in tool_calls` loop (app.py lines 147-207). The `except` clause is
embedded by the `Except.error` branches; the argument mapping is returned as
mutated in place, which happens before validation can fail. -/
def invokeOneCore (today : String) (cities : String → Option String)
    (ext : Externals) (s : SessionState) (t : ToolCallRequest) : String × Args :=
  if ¬ registeredTools.contains t.name then
    ("Invalid tool", t.args)
  else if t.name = "hotels_finder" then
    let args := resolveHotelArgs today s t.args
    match ext.validateHotel args with
    | Except.error e => ("Tool call failed: " ++ e, args)
    | Except.ok _ =>
      match ext.runTool t.name args with
      | Except.error e => ("Tool call failed: " ++ e, args)
      | Except.ok r => (r, args)
  else if t.name = "flights_finder" then
    let args := resolveFlightArgs today cities s t.args
    match ext.validateFlight args with
    | Except.error e => ("Tool call failed: " ++ e, args)
    | Except.ok _ =>
      match ext.runTool t.name args with
      | Except.error e => ("Tool call failed: " ++ e, args)
      | Except.ok r => (r, args)
  else
    ("Unsupported tool", t.args)

/-- One iteration of the invocation loop: the appended `ToolMessage` and the
request as mutated in place (`args = t.get("args", {})` aliases the `args`
dict stored inside the request). -/
def invokeOne (today : String) (cities : String → Option String)
    (ext : Externals) (s : SessionState) (t : ToolCallRequest) :
    ToolResultMsg × ToolCallRequest :=
  let c := invokeOneCore today cities ext s t
  ({ tool_call_id := t.id, name := t.name, content := c.1 },
   { t with args := c.2 })

/-- Embeds `Agent.invoke_tools` applied to the `tool_calls` of the latest
assistant message: the emitted results in request order, and the requests as
mutated in place. -/
def invoke_tools (today : String) (cities : String → Option String)
    (ext : Externals) (s : SessionState) (tool_calls : List ToolCallRequest) :
    List ToolResultMsg × List ToolCallRequest :=
  (tool_calls.map (fun t => (invokeOne today cities ext s t).1),
   tool_calls.map (fun t => (invokeOne today cities ext s t).2))

/-- Message roles of the conversation. -/
inductive Role where
  | user
  | assistant
  | tool
deriving DecidableEq, Repr

/-- A conversation message. In langchain only assistant messages
(`AIMessage`) carry the `tool_calls` attribute, so
`hasattr(msg, "tool_calls")` is embedded as a role test. -/
structure Message where
  role : Role
  content : String
  tool_calls : List ToolCallRequest := []
  tool_call_id : Option String := none
deriving DecidableEq, Repr

/-- Embeds `Agent.exists_action` (app.py lines 133-137). The `none` value
models the `IndexError` that `state["messages"][-1]` raises on an empty
conversation, a case the compiled graph never produces. -/
def exists_action (messages : List Message) : Option String :=
  match messages.getLast? with
  | none => none
  | some m =>
    if m.role = Role.assistant ∧ m.tool_calls.length > 0 then some "more_tools"
    else some "end"

/-- The `ToolMessage(tool_call_id=..., name=..., content=...)` appended for
one result. -/
def toolMessage (r : ToolResultMsg) : Message :=
  { role := Role.tool, content := r.content, tool_calls := [],
    tool_call_id := some r.tool_call_id }

/-- State-level effect of the `invoke_tools` node: the round's results are
appended by the `operator.add` reducer, and the latest assistant message's
`tool_calls` are mutated in place because each `args` dict is shared between
the stored request and the loop body. `none` models the crash on an empty
conversation (unreachable in the graph). -/
def invokeToolsNode (today : String) (cities : String → Option String)
    (ext : Externals) (s : SessionState) (messages : List Message) :
    Option (List Message) :=
  match messages.getLast? with
  | none => none
  | some m =>
    let r := invoke_tools today cities ext s m.tool_calls
    some (messages.dropLast ++ [{ m with tool_calls := r.2 }]
      ++ r.1.map toolMessage)

/-- Phases of the compiled graph: about to run `call_tools_llm`, about to run
`invoke_tools`, or at `END`. -/
inductive Phase where
  | deciding
  | invoking
  | done
deriving DecidableEq, Repr

/-- One step of the compiled graph (`Agent.__init__`, app.py lines 119-131):
the entry node `call_tools_llm` appends the reasoning component's message and
routes through `exists_action` (`"more_tools"` to `invoke_tools`, `"end"` to
`END`); `invoke_tools` returns to `call_tools_llm` unconditionally. `llm` is
the external reasoning component. -/
def stepGraph (llm : List Message → Message) (today : String)
    (cities : String → Option String) (ext : Externals) (s : SessionState) :
    Phase × List Message → Phase × List Message
  | (Phase.deciding, ms) =>
    let ms' := ms ++ [llm ms]
    if exists_action ms' = some "more_tools" then (Phase.invoking, ms')
    else (Phase.done, ms')
  | (Phase.invoking, ms) =>
    (Phase.deciding, (invokeToolsNode today cities ext s ms).getD ms)
  | (Phase.done, ms) => (Phase.done, ms)

/-- Requires a string-valued entry under key `k`. -/
def requireStr (a : Args) (k : String) : Except String Unit :=
  match alookup a k with
  | some (Value.vStr _) => Except.ok ()
  | _ => Except.error ("validation error: " ++ k)

/-- Requires a numeric entry under key `k`. -/
def requireNat (a : Args) (k : String) : Except String Unit :=
  match alookup a k with
  | some (Value.vNat _) => Except.ok ()
  | _ => Except.error ("validation error: " ++ k)

/-- Modelled from the spec: the `FlightsInput` schema check (`flight_tool.py`
is not part of the analysed source). Spec section 6 declares
`flight_lookup(departure_airport, arrival_airport, outbound_date,
return_date, adults, children)` and section 4.4 requires the declared fields
present with correct primitive types, so a missing or `None` airport fails
validation. -/
def flightsInputCheck (a : Args) : Except String Unit := do
  _ ← requireStr a "departure_airport"
  _ ← requireStr a "arrival_airport"
  _ ← requireStr a "outbound_date"
  _ ← requireStr a "return_date"
  _ ← requireNat a "adults"
  requireNat a "children"

/-- Modelled from the spec: the static airport-code map of spec section 3
(`cities_iata.json` is configuration outside the analysed source; the spec's
examples are Paris to CDG and Madrid to MAD). -/
def citiesExample : String → Option String := fun c =>
  if c = "paris" then some "CDG"
  else if c = "madrid" then some "MAD"
  else none

/-- The argument names the hotel branch of the resolver can fill in
(app.py lines 155-173). -/
def hotelFillKeys : List String :=
  ["q", "check_in_date", "check_out_date", "adults", "hotel_class", "sort_by"]

/-- The argument names the flight branch of the resolver can fill in
(app.py lines 181-192). -/
def flightFillKeys : List String :=
  ["departure_airport", "arrival_airport", "outbound_date", "return_date",
   "adults", "children"]

/-- A reasoning component that requests a tool call on every decision step. -/
def badLLM : List Message → Message := fun _ =>
  { role := Role.assistant, content := "",
    tool_calls := [⟨"loop", "hotels_finder", []⟩] }

/-- External collaborators that always succeed. -/
def extOk : Externals :=
  ⟨fun _ => Except.ok (), fun _ => Except.ok (), fun _ _ => Except.ok "ok"⟩

/-- External collaborators whose validation and calls always fail. -/
def extFail : Externals :=
  ⟨fun _ => Except.error "bad hotel args", fun _ => Except.error "bad flight args",
   fun _ _ => Except.error "network down"⟩

/-- External collaborators whose validation succeeds but whose adapter calls
always fail. -/
def extRunFail : Externals :=
  ⟨fun _ => Except.ok (), fun _ => Except.ok (),
   fun _ _ => Except.error "network down"⟩

/-- External collaborators using the spec-modelled flight schema check. -/
def extFlightCheck : Externals :=
  ⟨fun _ => Except.ok (), flightsInputCheck, fun _ _ => Except.ok "flight results"⟩

/-- Session of the unmapped-origin scenario of spec section 8. -/
def sessionUnknownville : SessionState :=
  { origin := some "Unknownville", destination := some "Paris",
    budget := some "Low" }

/-- Lookup ignores a suffix when the key is already bound. -/
theorem alookup_append_some {a : Args} {k : String} {v : Value}
    (h : alookup a k = some v) (b : Args) : alookup (a ++ b) k = some v := by
  induction a with
  | nil => simp [alookup] at h
  | cons p rest ih =>
    obtain ⟨k', v'⟩ := p
    by_cases hk : k' = k
    · simp [alookup, hk] at h ⊢; exact h
    · simp [alookup, hk] at h ⊢; exact ih h

/-- Lookup moves to the suffix when the key is unbound in the front part. -/
theorem alookup_append_none {a : Args} {k : String}
    (h : alookup a k = none) (b : Args) : alookup (a ++ b) k = alookup b k := by
  induction a with
  | nil => simp
  | cons p rest ih =>
    obtain ⟨k', v'⟩ := p
    by_cases hk : k' = k
    · simp [alookup, hk] at h
    · simp [alookup, hk] at h ⊢; exact ih h

/-- Appending a differently-named binding does not change a lookup. -/
theorem alookup_append_single_ne {a : Args} {k k' : String} {v' : Value}
    (h : k' ≠ k) : alookup (a ++ [(k', v')]) k = alookup a k := by
  cases hc : alookup a k with
  | some v => exact alookup_append_some hc _
  | none => rw [alookup_append_none hc]; simp [alookup, h]

/-- `setIfAbsent` keeps every existing binding. -/
theorem alookup_setIfAbsent_some {a : Args} {k : String} {v : Value}
    (h : alookup a k = some v) (k' : String) (v' : Value) :
    alookup (setIfAbsent a k' v') k = some v := by
  unfold setIfAbsent
  split
  · exact h
  · exact alookup_append_some h _

/-- `setIfAbsent` on another key does not change a lookup. -/
theorem alookup_setIfAbsent_ne {a : Args} {k k' : String} (v' : Value)
    (h : k' ≠ k) : alookup (setIfAbsent a k' v') k = alookup a k := by
  unfold setIfAbsent
  split
  · rfl
  · exact alookup_append_single_ne h

/-- `setIfAbsent` fills an absent key with the given value. -/
theorem alookup_setIfAbsent_absent {a : Args} {k : String} (v : Value)
    (h : alookup a k = none) : alookup (setIfAbsent a k v) k = some v := by
  unfold setIfAbsent
  rw [h]
  simp only [Option.isSome_none, Bool.false_eq_true, if_false]
  rw [alookup_append_none h]
  simp [alookup]

/-- Conversion of a valid code point round-trips through `Char.ofNat`. -/
theorem toNat_ofNat_valid (n : Nat) (h : n.isValidChar) :
    (Char.ofNat n).toNat = n := by
  rw [Char.ofNat, dif_pos h]
  rfl

/-- Lower-casing a character twice is the same as doing it once. -/
theorem lowerChar_idem (c : Char) : lowerChar (lowerChar c) = lowerChar c := by
  unfold lowerChar
  by_cases h : 65 ≤ c.toNat ∧ c.toNat ≤ 90
  · have hv : (c.toNat + 32).isValidChar := Or.inl (by omega)
    have ht : (Char.ofNat (c.toNat + 32)).toNat = c.toNat + 32 :=
      toNat_ofNat_valid _ hv
    simp only [if_pos h, ht]
    rw [if_neg (by omega)]
  · simp [h]

/-- Lower-casing a string twice is the same as doing it once. -/
theorem lowerStr_idem (s : String) : lowerStr (lowerStr s) = lowerStr s := by
  unfold lowerStr
  refine congrArg String.mk ?_
  simp only [List.map_map]
  exact List.map_congr_left (fun c _ => lowerChar_idem c)

/-- `fillHotelClass` keeps every existing binding. -/
theorem alookup_fillHotelClass_some {a : Args} {k : String} {v : Value}
    (h : alookup a k = some v) (b : String) :
    alookup (fillHotelClass b a) k = some v := by
  unfold fillHotelClass
  split
  · exact h
  · split
    · exact alookup_append_some h _
    · split
      · exact alookup_append_some h _
      · split
        · exact alookup_append_some h _
        · exact h

/-- `fillHotelClass` touches no key other than `hotel_class`. -/
theorem alookup_fillHotelClass_ne {a : Args} {k : String}
    (h : k ≠ "hotel_class") (b : String) :
    alookup (fillHotelClass b a) k = alookup a k := by
  unfold fillHotelClass
  have hne : ("hotel_class" : String) ≠ k := fun hc => h hc.symm
  split
  · rfl
  · split
    · exact alookup_append_single_ne hne
    · split
      · exact alookup_append_single_ne hne
      · split
        · exact alookup_append_single_ne hne
        · rfl

/-- Value written by `fillHotelClass` into an absent `hotel_class` slot: the
three recognised tiers map to their class string, anything else writes
nothing. -/
theorem alookup_fillHotelClass_absent {a : Args}
    (h : alookup a "hotel_class" = none) (b : String) :
    alookup (fillHotelClass b a) "hotel_class" =
      (if b = "low" then some (Value.vStr "1,2")
       else if b = "medium" then some (Value.vStr "3,4")
       else if b = "high" then some (Value.vStr "5")
       else none) := by
  unfold fillHotelClass
  rw [h]
  simp only [Option.isSome_none, Bool.false_eq_true, if_false]
  by_cases h1 : b = "low"
  · rw [if_pos h1, if_pos h1, alookup_append_none h]; simp [alookup]
  · rw [if_neg h1, if_neg h1]
    by_cases h2 : b = "medium"
    · rw [if_pos h2, if_pos h2, alookup_append_none h]; simp [alookup]
    · rw [if_neg h2, if_neg h2]
      by_cases h3 : b = "high"
      · rw [if_pos h3, if_pos h3, alookup_append_none h]; simp [alookup]
      · rw [if_neg h3, if_neg h3]
        exact h

/-- The final argument mapping of one loop iteration is the resolver's
output for the two registered tools, and the untouched input otherwise. -/
theorem invokeOneCore_snd (today : String) (cities : String → Option String)
    (ext : Externals) (s : SessionState) (t : ToolCallRequest) :
    (invokeOneCore today cities ext s t).2 =
      (if t.name = "hotels_finder" then resolveHotelArgs today s t.args
       else if t.name = "flights_finder" then
         resolveFlightArgs today cities s t.args
       else t.args) := by
  obtain ⟨tid, tname, targs⟩ := t
  by_cases h1 : tname = "hotels_finder"
  · subst h1
    rcases hv : ext.validateHotel (resolveHotelArgs today s targs) with e | u
    · simp [invokeOneCore, registeredTools, hv]
    · rcases hr : ext.runTool "hotels_finder" (resolveHotelArgs today s targs)
        with e | r
      · simp [invokeOneCore, registeredTools, hv, hr]
      · simp [invokeOneCore, registeredTools, hv, hr]
  · by_cases h2 : tname = "flights_finder"
    · subst h2
      rcases hv : ext.validateFlight (resolveFlightArgs today cities s targs)
        with e | u
      · simp [invokeOneCore, registeredTools, hv]
      · rcases hr :
          ext.runTool "flights_finder" (resolveFlightArgs today cities s targs)
          with e | r
        · simp [invokeOneCore, registeredTools, hv, hr]
        · simp [invokeOneCore, registeredTools, hv, hr]
    · simp [invokeOneCore, registeredTools, h1, h2]

/-- The spec-modelled flight schema check rejects a `None`-valued
`departure_airport`. -/
theorem flightsInputCheck_rejects_none (a : Args)
    (h : alookup a "departure_airport" = some Value.vNone) :
    ∃ e, flightsInputCheck a = Except.error e := by
  refine ⟨"validation error: departure_airport", ?_⟩
  simp [flightsInputCheck, requireStr, h, Bind.bind, Except.bind]

/-- Value of `hotel_class` after resolution when the reasoning component left
it unsupplied: the three recognised tiers write their class string, every
other tier writes nothing. -/
theorem resolveHotel_hotelClass (today : String) (s : SessionState)
    (args : Args) (h : alookup args "hotel_class" = none) :
    alookup (resolveHotelArgs today s args) "hotel_class" =
      (if budgetOf s = "low" then some (Value.vStr "1,2")
       else if budgetOf s = "medium" then some (Value.vStr "3,4")
       else if budgetOf s = "high" then some (Value.vStr "5")
       else none) := by
  have h4 : alookup (setIfAbsent (setIfAbsent (setIfAbsent (setIfAbsent args
      "q" (Value.vStr (s.destination.getD "")))
      "check_in_date" (Value.vStr (s.start_date.getD today)))
      "check_out_date" (Value.vStr (s.end_date.getD today)))
      "adults" (Value.vNat 2)) "hotel_class" = none := by
    rw [alookup_setIfAbsent_ne _ (show ("adults" : String) ≠ "hotel_class" by decide),
        alookup_setIfAbsent_ne _ (show ("check_out_date" : String) ≠ "hotel_class" by decide),
        alookup_setIfAbsent_ne _ (show ("check_in_date" : String) ≠ "hotel_class" by decide),
        alookup_setIfAbsent_ne _ (show ("q" : String) ≠ "hotel_class" by decide)]
    exact h
  simp only [resolveHotelArgs]
  rw [alookup_setIfAbsent_ne _ (show ("sort_by" : String) ≠ "hotel_class" by decide)]
  exact alookup_fillHotelClass_absent h4 _

/-- A graph step never reaches `END` when the reasoning component always
answers with an assistant message carrying tool calls. -/
theorem stepGraph_preserves (llm : List Message → Message) (today : String)
    (cities : String → Option String) (ext : Externals) (s : SessionState)
    (hllm : ∀ ms, (llm ms).role = Role.assistant ∧ (llm ms).tool_calls ≠ [])
    (st : Phase × List Message) (h : st.1 ≠ Phase.done) :
    (stepGraph llm today cities ext s st).1 ≠ Phase.done := by
  obtain ⟨ph, ms⟩ := st
  cases ph with
  | deciding =>
    have hroute : exists_action (ms ++ [llm ms]) = some "more_tools" := by
      simp only [exists_action, List.getLast?_concat]
      rw [if_pos ⟨(hllm ms).1, List.length_pos.mpr (hllm ms).2⟩]
    simp [stepGraph, hroute]
  | invoking => simp [stepGraph]
  | done => exact absurd rfl h

/-- Iterating the graph from a non-terminal phase never reaches `END` when
the reasoning component always requests tools. -/
theorem stepGraph_no_done (llm : List Message → Message) (today : String)
    (cities : String → Option String) (ext : Externals) (s : SessionState)
    (hllm : ∀ ms, (llm ms).role = Role.assistant ∧ (llm ms).tool_calls ≠ [])
    (n : Nat) (st : Phase × List Message) (h : st.1 ≠ Phase.done) :
    ((stepGraph llm today cities ext s)^[n] st).1 ≠ Phase.done := by
  induction n generalizing st with
  | zero => simpa using h
  | succ n ih =>
    rw [Function.iterate_succ_apply]
    exact ih _ (stepGraph_preserves llm today cities ext s hllm st h)

/-- Claim C1: for every invocation round, `invoke_tools` emits exactly one
tool-result message per `ToolCallRequest` of the latest assistant message, in
request order, with each result's `tool_call_id` equal to the id of its
originating request — no duplicates, no omissions, for every behaviour of the
validators and adapters, including one where every call fails. -/
theorem C1_one_result_per_request (today : String)
    (cities : String → Option String) (ext : Externals) (s : SessionState)
    (tcs : List ToolCallRequest) :
    ((invoke_tools today cities ext s tcs).1).map (fun r => r.tool_call_id)
        = tcs.map (fun t => t.id)
    ∧ ((invoke_tools today cities ext s tcs).1).length = tcs.length := by
  constructor
  · simp only [invoke_tools, List.map_map]
    rfl
  · simp [invoke_tools]

/-- Claim C2: `exists_action` returns `"more_tools"` exactly when the most
recently appended message is an assistant message with a non-empty
`tool_calls` sequence, and `"end"` in every other case. -/
theorem C2_routing_decision (ms : List Message) (m : Message)
    (h : ms.getLast? = some m) :
    (exists_action ms = some "more_tools" ↔
        m.role = Role.assistant ∧ m.tool_calls ≠ [])
    ∧ (exists_action ms = some "end" ↔
        ¬ (m.role = Role.assistant ∧ m.tool_calls ≠ [])) := by
  have hlen : (m.tool_calls.length > 0) ↔ m.tool_calls ≠ [] := List.length_pos
  simp only [exists_action, h]
  by_cases hc : m.role = Role.assistant ∧ m.tool_calls ≠ []
  · rw [if_pos ⟨hc.1, hlen.mpr hc.2⟩]
    simp [hc]
  · rw [if_neg (fun hcc => hc ⟨hcc.1, hlen.mp hcc.2⟩)]
    simp [hc]

/-- Claim C2 witness: a single assistant message with one tool call routes to
`"more_tools"`. -/
theorem C2_routing_decision_witness :
    exists_action [⟨Role.assistant, "", [⟨"c1", "hotels_finder", []⟩], none⟩]
      = some "more_tools" :=
  (C2_routing_decision _ _ (List.getLast?_concat [])).1.mpr ⟨rfl, by decide⟩

/-- Claim C3 counterexample: with the session budget tier `"luxury"` — a
value outside `low`/`medium`/`high` — and no supplied `hotel_class`, the
resolved hotel arguments contain no `hotel_class` at all: the code's
`if/elif` chain has no fallback branch, so the claimed fall-back to the
medium mapping `"3,4"` does not happen and the mapping is not total. -/
theorem C3_cex_unknown_tier_no_hotel_class :
    alookup (resolveHotelArgs "2025-06-01"
        { destination := some "Paris", budget := some "luxury" } [])
        "hotel_class" = none
    ∧ alookup (resolveHotelArgs "2025-06-01"
        { destination := some "Paris", budget := some "luxury" } [])
        "hotel_class" ≠ some (Value.vStr "3,4") := by
  constructor
  · decide
  · decide

/-- Claim C3 as amended: budget-tier resolution of `hotel_class` maps
`low` to `"1,2"`, `medium` to `"3,4"` and `high` to `"5"`; an *unset* tier
falls back to the default `"Medium"` and hence to `"3,4"`; but any other tier
value leaves `hotel_class` absent from the resolved arguments, so the mapping
is not total over arbitrary tier strings. -/
theorem C3_budget_tier_mapping (today : String) (s : SessionState)
    (args : Args) (h : alookup args "hotel_class" = none) :
    (budgetOf s = "low" →
      alookup (resolveHotelArgs today s args) "hotel_class"
        = some (Value.vStr "1,2"))
    ∧ (budgetOf s = "medium" →
      alookup (resolveHotelArgs today s args) "hotel_class"
        = some (Value.vStr "3,4"))
    ∧ (budgetOf s = "high" →
      alookup (resolveHotelArgs today s args) "hotel_class"
        = some (Value.vStr "5"))
    ∧ (s.budget = none →
      alookup (resolveHotelArgs today s args) "hotel_class"
        = some (Value.vStr "3,4"))
    ∧ (budgetOf s ≠ "low" → budgetOf s ≠ "medium" → budgetOf s ≠ "high" →
      alookup (resolveHotelArgs today s args) "hotel_class" = none) := by
  have key := resolveHotel_hotelClass today s args h
  refine ⟨?_, ?_, ?_, ?_, ?_⟩
  · intro hb; rw [key, if_pos hb]
  · intro hb
    rw [key, if_neg (by rw [hb]; decide), if_pos hb]
  · intro hb
    rw [key, if_neg (by rw [hb]; decide), if_neg (by rw [hb]; decide), if_pos hb]
  · intro hb
    have hm : budgetOf s = "medium" := by
      simp [budgetOf, hb]
      decide
    rw [key, if_neg (by rw [hm]; decide), if_pos hm]
  · intro h1 h2 h3
    rw [key, if_neg h1, if_neg h2, if_neg h3]

/-- Claim C3 witness: the session tier `"Low"` resolves `hotel_class` to
`"1,2"`. -/
theorem C3_budget_tier_mapping_witness :
    alookup (resolveHotelArgs "2025-06-01" { budget := some "Low" } [])
      "hotel_class" = some (Value.vStr "1,2") :=
  (C3_budget_tier_mapping "2025-06-01" { budget := some "Low" } [] rfl).1
    (by decide)

/-- Claim C4: argument resolution preserves every argument explicitly
supplied by the reasoning component, and it fills nothing beyond the
tool-specific fill keys — an argument absent from the request and outside
those keys stays absent. -/
theorem C4_explicit_arguments_win (today : String)
    (cities : String → Option String) (s : SessionState) (args : Args)
    (k : String) :
    (∀ v, alookup args k = some v →
        alookup (resolveHotelArgs today s args) k = some v
      ∧ alookup (resolveFlightArgs today cities s args) k = some v)
    ∧ (alookup args k = none → k ∉ hotelFillKeys →
        alookup (resolveHotelArgs today s args) k = none)
    ∧ (alookup args k = none → k ∉ flightFillKeys →
        alookup (resolveFlightArgs today cities s args) k = none) := by
  refine ⟨?_, ?_, ?_⟩
  · intro v hv
    constructor
    · simp only [resolveHotelArgs]
      apply alookup_setIfAbsent_some
      apply alookup_fillHotelClass_some
      apply alookup_setIfAbsent_some
      apply alookup_setIfAbsent_some
      apply alookup_setIfAbsent_some
      apply alookup_setIfAbsent_some
      exact hv
    · simp only [resolveFlightArgs]
      apply alookup_setIfAbsent_some
      apply alookup_setIfAbsent_some
      apply alookup_setIfAbsent_some
      apply alookup_setIfAbsent_some
      apply alookup_setIfAbsent_some
      apply alookup_setIfAbsent_some
      exact hv
  · intro hnone hk
    simp only [hotelFillKeys, List.mem_cons, List.not_mem_nil, or_false] at hk
    push_neg at hk
    obtain ⟨h1, h2, h3, h4, h5, h6⟩ := hk
    simp only [resolveHotelArgs]
    rw [alookup_setIfAbsent_ne _ (Ne.symm h6),
        alookup_fillHotelClass_ne h5 _,
        alookup_setIfAbsent_ne _ (Ne.symm h4),
        alookup_setIfAbsent_ne _ (Ne.symm h3),
        alookup_setIfAbsent_ne _ (Ne.symm h2),
        alookup_setIfAbsent_ne _ (Ne.symm h1)]
    exact hnone
  · intro hnone hk
    simp only [flightFillKeys, List.mem_cons, List.not_mem_nil, or_false] at hk
    push_neg at hk
    obtain ⟨h1, h2, h3, h4, h5, h6⟩ := hk
    simp only [resolveFlightArgs]
    rw [alookup_setIfAbsent_ne _ (Ne.symm h6),
        alookup_setIfAbsent_ne _ (Ne.symm h5),
        alookup_setIfAbsent_ne _ (Ne.symm h4),
        alookup_setIfAbsent_ne _ (Ne.symm h3),
        alookup_setIfAbsent_ne _ (Ne.symm h2),
        alookup_setIfAbsent_ne _ (Ne.symm h1)]
    exact hnone

/-- Claim C4 witness: an explicitly supplied `adults = 5` survives both
resolvers unchanged. -/
theorem C4_explicit_arguments_win_witness :
    alookup (resolveHotelArgs "2025-06-01" {} [("adults", Value.vNat 5)])
        "adults" = some (Value.vNat 5)
    ∧ alookup (resolveFlightArgs "2025-06-01" citiesExample {}
        [("adults", Value.vNat 5)]) "adults" = some (Value.vNat 5) :=
  (C4_explicit_arguments_win "2025-06-01" citiesExample {}
    [("adults", Value.vNat 5)] "adults").1 (Value.vNat 5) rfl

/-- Claim C5: per-call failures are data, not control flow — an unregistered
tool name yields the fixed `"Invalid tool"` content and the outcome is
independent of the validators and adapters (no lookup attempted); a
validation failure or an adapter failure — for either of the two registered
tools — yields a `"Tool call failed: "` content embedding the error detail;
invocation continues with the remaining requests of the round, and the round
always completes with one result per request, so no exception escapes
`invoke_tools`. -/
theorem C5_failures_absorbed_as_data (today : String)
    (cities : String → Option String) (ext ext' : Externals)
    (s : SessionState) (t : ToolCallRequest) (ts : List ToolCallRequest)
    (e : String) :
    (¬ registeredTools.contains t.name →
        (invokeOne today cities ext s t).1.content = "Invalid tool"
      ∧ invokeOne today cities ext s t = invokeOne today cities ext' s t)
    ∧ (t.name = "hotels_finder" →
        ext.validateHotel (resolveHotelArgs today s t.args) = Except.error e →
        (invokeOne today cities ext s t).1.content = "Tool call failed: " ++ e)
    ∧ (t.name = "hotels_finder" → ∀ u,
        ext.validateHotel (resolveHotelArgs today s t.args) = Except.ok u →
        ext.runTool t.name (resolveHotelArgs today s t.args) = Except.error e →
        (invokeOne today cities ext s t).1.content = "Tool call failed: " ++ e)
    ∧ (t.name = "flights_finder" →
        ext.validateFlight (resolveFlightArgs today cities s t.args)
            = Except.error e →
        (invokeOne today cities ext s t).1.content = "Tool call failed: " ++ e)
    ∧ (t.name = "flights_finder" → ∀ u,
        ext.validateFlight (resolveFlightArgs today cities s t.args)
            = Except.ok u →
        ext.runTool t.name (resolveFlightArgs today cities s t.args)
            = Except.error e →
        (invokeOne today cities ext s t).1.content = "Tool call failed: " ++ e)
    ∧ ((invoke_tools today cities ext s (t :: ts)).1
        = (invokeOne today cities ext s t).1
            :: (invoke_tools today cities ext s ts).1)
    ∧ ((invoke_tools today cities ext s ts).1.length = ts.length) := by
  obtain ⟨tid, tname, targs⟩ := t
  refine ⟨?_, ?_, ?_, ?_, ?_, ?_, ?_⟩
  · intro h
    have hm : tname ∉ registeredTools := by simpa using h
    constructor
    · simp [invokeOne, invokeOneCore, hm]
    · simp [invokeOne, invokeOneCore, hm]
  · intro hn hv
    simp only at hn
    subst hn
    simp [invokeOne, invokeOneCore, registeredTools, hv]
  · intro hn u hv hr
    simp only at hn
    subst hn
    simp only at hv hr
    simp [invokeOne, invokeOneCore, registeredTools, hv, hr]
  · intro hn hv
    simp only at hn
    subst hn
    simp [invokeOne, invokeOneCore, registeredTools, hv]
  · intro hn u hv hr
    simp only at hn
    subst hn
    simp only at hv hr
    simp [invokeOne, invokeOneCore, registeredTools, hv, hr]
  · simp [invoke_tools]
  · simp [invoke_tools]

/-- Claim C5 witness: a failing hotel validation and a failing flight
adapter call are both absorbed into the result content, and a two-request
round (one of them naming an unregistered tool) still emits two results. -/
theorem C5_failures_absorbed_as_data_witness :
    (invokeOne "2025-06-01" citiesExample extFail {}
        ⟨"id1", "hotels_finder", []⟩).1.content
      = "Tool call failed: bad hotel args"
    ∧ (invokeOne "2025-06-01" citiesExample extRunFail {}
        ⟨"id2", "flights_finder", []⟩).1.content
      = "Tool call failed: network down"
    ∧ (invoke_tools "2025-06-01" citiesExample extFail {}
        [⟨"idA", "hotels_finder", []⟩, ⟨"idB", "teleport", []⟩]).1.length
      = 2 := by
  have h := C5_failures_absorbed_as_data "2025-06-01" citiesExample extFail
    extFail {} ⟨"id1", "hotels_finder", []⟩
    [⟨"idA", "hotels_finder", []⟩, ⟨"idB", "teleport", []⟩] "bad hotel args"
  have h2 := C5_failures_absorbed_as_data "2025-06-01" citiesExample extRunFail
    extRunFail {} ⟨"id2", "flights_finder", []⟩ [] "network down"
  exact ⟨h.2.1 rfl rfl, h2.2.2.2.2.1 rfl () rfl rfl, h.2.2.2.2.2.2⟩

/-- Claim C6 counterexample: with `departure_airport` unsupplied and the
session origin `"Unknownville"` absent from the airport map, resolution does
not leave `departure_airport` absent — `args["departure_airport"] =
cities_iata.get(...)` stores the Python `None` value under the key, so the
key is present and bound to `None`. -/
theorem C6_cex_departure_airport_null_not_absent :
    alookup (resolveFlightArgs "2025-07-01" citiesExample sessionUnknownville
        []) "departure_airport" = some Value.vNone
    ∧ alookup (resolveFlightArgs "2025-07-01" citiesExample
        sessionUnknownville []) "departure_airport" ≠ none := by
  constructor
  · decide
  · decide

/-- Claim C6 as amended: for a flight request with `departure_airport`
unsupplied and a session origin absent from the airport map, resolution sets
`departure_airport` to the `None` value rather than guessing a code;
downstream schema validation (which rejects a `None` required airport) fails,
the call's result is a failure `ToolResult`, and the graph returns to the
decision step without crashing. -/
theorem C6_unmapped_origin_validation_failure (today : String)
    (cities : String → Option String) (ext : Externals) (s : SessionState)
    (t : ToolCallRequest)
    (hname : t.name = "flights_finder")
    (hmiss : alookup t.args "departure_airport" = none)
    (horig : cities (lowerStr (s.origin.getD "")) = none)
    (hval : ∀ a, alookup a "departure_airport" = some Value.vNone →
        ∃ e, ext.validateFlight a = Except.error e) :
    alookup (resolveFlightArgs today cities s t.args) "departure_airport"
        = some Value.vNone
    ∧ (∃ e, ext.validateFlight (resolveFlightArgs today cities s t.args)
            = Except.error e
          ∧ (invokeOne today cities ext s t).1.content
            = "Tool call failed: " ++ e)
    ∧ (∀ llm ms, (stepGraph llm today cities ext s (Phase.invoking, ms)).1
        = Phase.deciding) := by
  have h1 : alookup (resolveFlightArgs today cities s t.args)
      "departure_airport" = some Value.vNone := by
    simp only [resolveFlightArgs]
    apply alookup_setIfAbsent_some
    apply alookup_setIfAbsent_some
    apply alookup_setIfAbsent_some
    apply alookup_setIfAbsent_some
    apply alookup_setIfAbsent_some
    rw [alookup_setIfAbsent_absent _ hmiss]
    simp [iataValue, horig]
  refine ⟨h1, ?_, fun _ _ => rfl⟩
  obtain ⟨e, he⟩ := hval _ h1
  refine ⟨e, he, ?_⟩
  obtain ⟨tid, tname, targs⟩ := t
  simp only at hname
  subst hname
  simp only at he h1 ⊢
  simp [invokeOne, invokeOneCore, registeredTools, he]

/-- Claim C6 witness: the Unknownville scenario under the spec-modelled
flight schema check produces a failure result. -/
theorem C6_unmapped_origin_validation_failure_witness :
    alookup (resolveFlightArgs "2025-07-01" citiesExample sessionUnknownville
        []) "departure_airport" = some Value.vNone
    ∧ ∃ e, (invokeOne "2025-07-01" citiesExample extFlightCheck
        sessionUnknownville ⟨"c9", "flights_finder", []⟩).1.content
        = "Tool call failed: " ++ e := by
  have h := C6_unmapped_origin_validation_failure "2025-07-01" citiesExample
    extFlightCheck sessionUnknownville ⟨"c9", "flights_finder", []⟩ rfl rfl
    (by decide) (fun a ha => flightsInputCheck_rejects_none a ha)
  exact ⟨h.1, h.2.1.elim (fun e he => ⟨e, he.2⟩)⟩

/-- Claim C7: with session destination `"Paris"` and budget tier `"low"`, a
hotel request supplying only `check_in_date = "2025-07-01"` resolves to a
mapping with `hotel_class = "1,2"`, `sort_by = "3"` and `q = "Paris"`. -/
theorem C7_paris_low_budget_scenario :
    alookup (resolveHotelArgs "2025-06-01"
        { destination := some "Paris", budget := some "low" }
        [("check_in_date", Value.vStr "2025-07-01")]) "hotel_class"
      = some (Value.vStr "1,2")
    ∧ alookup (resolveHotelArgs "2025-06-01"
        { destination := some "Paris", budget := some "low" }
        [("check_in_date", Value.vStr "2025-07-01")]) "sort_by"
      = some (Value.vStr "3")
    ∧ alookup (resolveHotelArgs "2025-06-01"
        { destination := some "Paris", budget := some "low" }
        [("check_in_date", Value.vStr "2025-07-01")]) "q"
      = some (Value.vStr "Paris") := by
  refine ⟨?_, ?_, ?_⟩
  · decide
  · decide
  · decide

/-- Claim C8 counterexample: with a reasoning component that requests a tool
call on every decision step, no number of graph steps ever reaches the
terminal phase — the wiring built in `Agent.__init__` contains no round cap
and no partial-answer path, so the claimed forced transition to `DONE` does
not exist in the code. -/
theorem C8_cex_no_round_cap :
    ¬ ∃ n : Nat, ((stepGraph badLLM "2025-06-01" citiesExample extOk {})^[n]
      (Phase.deciding,
        [{ role := Role.user, content := "plan a trip" }])).1
      = Phase.done := by
  rintro ⟨n, hn⟩
  exact stepGraph_no_done badLLM "2025-06-01" citiesExample extOk {}
    (fun ms => ⟨rfl, by simp [badLLM]⟩) n _ (by simp) hn

/-- Claim C8 as amended: the orchestrator enforces no maximum round count —
for every reasoning component that always requests tools, and for every
number of steps, the decision/invocation cycle has not terminated: the code
never forces a transition to the terminal state and never returns a
partial-answer marker. -/
theorem C8_no_cap_loop_never_terminates (llm : List Message → Message)
    (today : String) (cities : String → Option String) (ext : Externals)
    (s : SessionState) (ms : List Message) (n : Nat)
    (hllm : ∀ m, (llm m).role = Role.assistant ∧ (llm m).tool_calls ≠ []) :
    ((stepGraph llm today cities ext s)^[n] (Phase.deciding, ms)).1
      ≠ Phase.done :=
  stepGraph_no_done llm today cities ext s hllm n _ (by simp)

/-- Claim C8 witness: three steps of the always-requesting component have not
terminated. -/
theorem C8_no_cap_loop_never_terminates_witness :
    ((stepGraph badLLM "2025-06-01" citiesExample extOk {})^[3]
      (Phase.deciding, [])).1 ≠ Phase.done :=
  C8_no_cap_loop_never_terminates badLLM "2025-06-01" citiesExample extOk {}
    [] 3 (fun m => ⟨rfl, by simp [badLLM]⟩)

/-- Claim C9: budget-tier handling is case-insensitive — resolving with any
session budget string yields the same completed hotel mapping as resolving
with its lowercased form. -/
theorem C9_budget_case_insensitive (today : String) (s : SessionState)
    (args : Args) (b : String) :
    resolveHotelArgs today { s with budget := some b } args
      = resolveHotelArgs today { s with budget := some (lowerStr b) } args := by
  have hb : budgetOf { s with budget := some (lowerStr b) }
      = budgetOf { s with budget := some b } := by
    simp [budgetOf, lowerStr_idem]
  simp [resolveHotelArgs, hb]

/-- Claim C10: the `invoke_tools` node writes the filled-in defaults back
into the argument mappings carried by the originating requests — after the
node, the `tool_calls` stored in the prior assistant message hold the
completed (resolver-output) arguments, not only those the reasoning component
supplied. -/
theorem C10_assistant_message_args_mutated (today : String)
    (cities : String → Option String) (ext : Externals) (s : SessionState)
    (pre : List Message) (m : Message) :
    invokeToolsNode today cities ext s (pre ++ [m]) =
      some (pre
        ++ [{ m with tool_calls := m.tool_calls.map (fun t =>
              if t.name = "hotels_finder" then
                { t with args := resolveHotelArgs today s t.args }
              else if t.name = "flights_finder" then
                { t with args := resolveFlightArgs today cities s t.args }
              else t) }]
        ++ (invoke_tools today cities ext s m.tool_calls).1.map toolMessage) := by
  have h2 : (invoke_tools today cities ext s m.tool_calls).2
      = m.tool_calls.map (fun t =>
          if t.name = "hotels_finder" then
            { t with args := resolveHotelArgs today s t.args }
          else if t.name = "flights_finder" then
            { t with args := resolveFlightArgs today cities s t.args }
          else t) := by
    simp only [invoke_tools]
    refine List.map_congr_left (fun t _ => ?_)
    simp only [invokeOne, invokeOneCore_snd]
    by_cases h1 : t.name = "hotels_finder"
    · simp [h1]
    · by_cases hf : t.name = "flights_finder"
      · simp [h1, hf]
      · simp [h1, hf]
  simp only [invokeToolsNode, List.getLast?_concat, List.dropLast_concat]
  rw [h2]

end TravelAgent
